import Mathlib

/-!
Shallow embedding of the PID_Control_Simulation repository core
(src/backend/simulation/HVAC.py, model.py, process_model.py).

Conventions of the embedding:
* Python floats are modelled as exact rationals (`Rat`).
* Timestamps are modelled as a rational count of minutes; Python's
  `time += timedelta(minutes=1)` becomes `time + 1`.
* Each call to the `random` module is replaced by an explicit parameter
  holding the drawn value, so theorems quantify over all randomness
  outcomes.
* Python code that can raise on malformed input (tuple unpacking of a
  list, division) is modelled with `Option`: `none` means the call raises.
-/

namespace PidSim

/-- Python division `a / b`: raises `ZeroDivisionError` when `b = 0`,
modelled as `none`. -/
def pydiv (a b : Rat) : Option Rat :=
  if b = 0 then none else some (a / b)

/-! ## HVAC.py: class PID (lines 1-29) -/

/-- State of `class PID` (HVAC.py lines 3-10): gains, setpoint, and the two
mutable fields `previous_error` and `integral`. -/
structure PID where
  Kp : Rat
  Ki : Rat
  Kd : Rat
  setpoint : Rat
  previous_error : Rat
  integral : Rat
deriving DecidableEq

/-- `PID.__init__` (HVAC.py lines 3-10): `previous_error` and `integral`
start at 0. -/
def PID.init (Kp Ki Kd setpoint : Rat) : PID :=
  ⟨Kp, Ki, Kd, setpoint, 0, 0⟩

/-- `PID.update` (HVAC.py lines 12-29), with the division in the derivative
term modelled by `pydiv` so that a division by zero yields `none`. The
source guards the division with `if dt > 0`, so this function in fact never
returns `none` (lemma `PID.updateChecked_eq`). -/
def PID.updateChecked (p : PID) (measurement dt : Rat) : Option (Rat × PID) :=
  let error := p.setpoint - measurement
  let integral := p.integral + error * dt
  let derivativeOpt := if dt > 0 then pydiv (error - p.previous_error) dt else some 0
  match derivativeOpt with
  | none => none
  | some derivative =>
      some (p.Kp * error + p.Ki * integral + p.Kd * derivative,
            { p with integral := integral, previous_error := error })

/-- Total form of `PID.update` (HVAC.py lines 12-29): the guard `dt > 0`
makes the division safe, so the raising behaviour of `updateChecked` never
occurs and the function can be given totally. Returns the output together
with the mutated controller. -/
def PID.update (p : PID) (measurement dt : Rat) : Rat × PID :=
  let error := p.setpoint - measurement
  let integral := p.integral + error * dt
  let derivative := if dt > 0 then (error - p.previous_error) / dt else 0
  (p.Kp * error + p.Ki * integral + p.Kd * derivative,
   { p with integral := integral, previous_error := error })

/-! ## model.py: constants and state (lines 1-41) -/

/-- Configuration values the simulation reads (model.py lines 28-35):
`room_volume` and `occupants` from config['simulation']. The remaining
config values (`hours_run` and the initial conditions) are passed to the
driver functions explicitly. -/
structure Params where
  room_volume : Rat
  occupants : Rat
deriving DecidableEq

/-- `air_density = 1.225` (model.py line 22). -/
def air_density : Rat := 1.225

/-- `air_cp = 1005` (model.py line 23). -/
def air_cp : Rat := 1005

/-- `room_air_mass = room_volume * air_density` (model.py line 37). -/
def room_air_mass (p : Params) : Rat := p.room_volume * air_density

/-- `co2_gen_per_person` after the ppm conversion (model.py lines 24, 40):
`0.005*60` L/min, then `(x/1000)/room_volume * 10**6`. -/
def co2_gen_per_person (p : Params) : Rat :=
  ((0.005 * 60) / 1000) / p.room_volume * 10 ^ 6

/-- `o2_cons_per_person` after the ppm conversion (model.py lines 25, 41):
`6*0.05` L/min, then `(x/1000)/room_volume * 10**6`. -/
def o2_cons_per_person (p : Params) : Rat :=
  ((6 * 0.05) / 1000) / p.room_volume * 10 ^ 6

/-- The five-element state list `[time, temp, co2, o2, thermal]` that the
simulation threads through every tick, as a record. `time` counts minutes. -/
structure EnvState where
  time : Rat
  temp : Rat
  co2 : Rat
  o2 : Rat
  thermal : Rat
deriving DecidableEq

/-- The state as the Python list `[time, temp, co2, o2, thermal]`. -/
def stateToList (s : EnvState) : List Rat :=
  [s.time, s.temp, s.co2, s.o2, s.thermal]

/-! ## model.py: simulate_process_equipment (lines 45-54) -/

/-- Randomness drawn by one call of `simulate_process_equipment`:
`shock` is `random.random() < 0.01`, `step` is `random.randint(-50000,50000)`
and `noise` is `random.randint(-5000,5000)`. -/
structure EquipRand where
  shock : Bool
  step : Int
  noise : Int
deriving DecidableEq

/-- `simulate_process_equipment` (model.py lines 45-54): with probability 1%
add a step drawn from [-50000,50000], then unconditionally add noise drawn
from [-5000,5000]. -/
def simulate_process_equipment (r : EquipRand) (thermal : Rat) : Rat :=
  let t := if r.shock then thermal + (r.step : Rat) else thermal
  t + (r.noise : Rat)

/-! ## model.py: simulate_breathing_changes (lines 57-77) -/

/-- Randomness drawn by one call of `simulate_breathing_changes`: the two
`random.randrange(-diff,diff)` draws, for the CO2 and the O2 rate. -/
structure BreathRand where
  co2Jit : Int
  o2Jit : Int
deriving DecidableEq

/-- Inner `mod_breathing(g,min,max,diff)` (model.py lines 58-64): `min`/`max`
are renamed `mn`/`mx`, and the `random.randrange(-diff,diff)` draw is the
explicit argument `jit` (so the `diff` bound itself is not needed here).
The jitter, divided by 1000, is added when `g >= mn or g <= mx`, then the
result is scaled by `abs(temp/25)`. -/
def mod_breathing (temp g mn mx : Rat) (jit : Int) : Rat :=
  let g1 := if g ≥ mn ∨ g ≤ mx then g + (jit : Rat) / 1000 else g
  g1 * |temp / 25|

/-- `simulate_breathing_changes(co2,o2,temp)` (model.py lines 57-77): CO2
rises and O2 falls by the per-person rate times `occupants`, then both are
clamped by `max(min(1000000,g),0)`. Returns the pair `(co2, o2)` (the
source returns the two-element list `[co2,o2]`). -/
def simulate_breathing_changes (p : Params) (r : BreathRand) (co2 o2 temp : Rat) :
    Rat × Rat :=
  let cg := co2_gen_per_person p
  let og := o2_cons_per_person p
  let co2a := co2 + mod_breathing temp cg (cg / 10) (cg * 10) r.co2Jit * p.occupants
  let o2a := o2 - mod_breathing temp og (og / 10) (og * 10) r.o2Jit * p.occupants
  (max (min 1000000 co2a) 0, max (min 1000000 o2a) 0)

/-! ## model.py: the two room step functions (lines 81-141) -/

/-- Randomness consumed by one room tick: one equipment draw and one
breathing draw. -/
structure RoomRand where
  equip : EquipRand
  breath : BreathRand
deriving DecidableEq

/-- `simulate_airsealed_room_no_control(data)` (model.py lines 81-107):
advance time one minute, update thermal, add `thermal/(room_air_mass*air_cp)`
to the temperature, floor the temperature at -273 via `max(temp, -273)`,
then apply the breathing changes at the new temperature. -/
def simulate_airsealed_room_no_control (p : Params) (r : RoomRand) (s : EnvState) :
    EnvState :=
  let time := s.time + 1
  let thermal := simulate_process_equipment r.equip s.thermal
  let temp := max (s.temp + thermal / (room_air_mass p * air_cp)) (-273)
  let bo := simulate_breathing_changes p r.breath s.co2 s.o2 temp
  ⟨time, temp, bo.1, bo.2, thermal⟩

/-- `simulate_airsealed_room_with_control(data, hvac_data)` (model.py lines
111-141) for an hvac triple that unpacks as `(hvac_temp, hvac_co2, hvac_o2)`:
`hvac_temp` is added inside the energy-balance parenthesis, the floor is the
source's `if temp < -273: temp = -273`, and `hvac_co2`/`hvac_o2` are added to
the breathing results after their clamp, with no re-clamp. -/
def simulate_airsealed_room_with_control (p : Params) (r : RoomRand) (s : EnvState)
    (hvac : Rat × Rat × Rat) : EnvState :=
  let time := s.time + 1
  let thermal := simulate_process_equipment r.equip s.thermal
  let temp0 := s.temp + (thermal / (room_air_mass p * air_cp) + hvac.1)
  let temp := if temp0 < -273 then -273 else temp0
  let bo := simulate_breathing_changes p r.breath s.co2 s.o2 temp
  ⟨time, temp, bo.1 + hvac.2.1, bo.2 + hvac.2.2, thermal⟩

/-- Modelled from the spec's wording of `simulate_airsealed_room_with_control`
for the refinement claim C5: identical to the uncontrolled variant except
that the temperature adjustment is added to the energy-balance term before
the temperature floor (written with `max` as in the uncontrolled variant),
and the co2/o2 adjustments are added to the breathing results after their
clamp, with no re-clamp. -/
def with_control_spec (p : Params) (r : RoomRand) (s : EnvState)
    (hvac : Rat × Rat × Rat) : EnvState :=
  let time := s.time + 1
  let thermal := simulate_process_equipment r.equip s.thermal
  let temp := max (s.temp + (thermal / (room_air_mass p * air_cp) + hvac.1)) (-273)
  let bo := simulate_breathing_changes p r.breath s.co2 s.o2 temp
  ⟨time, temp, bo.1 + hvac.2.1, bo.2 + hvac.2.2, thermal⟩

/-- Python unpacking `a,b,c,d,e = data` of a list: raises unless the list
has exactly five elements. -/
def unpack5 (l : List Rat) : Option (Rat × Rat × Rat × Rat × Rat) :=
  match l with
  | [a, b, c, d, e] => some (a, b, c, d, e)
  | _ => none

/-- Python unpacking `a,b,c = hvac_data` of a list: raises unless the list
has exactly three elements. -/
def unpack3 (l : List Rat) : Option (Rat × Rat × Rat) :=
  match l with
  | [a, b, c] => some (a, b, c)
  | _ => none

/-- `simulate_airsealed_room_with_control` exactly as called on Python lists
(model.py lines 122-123 unpack `data` into five and `hvac_data` into three
names, raising `ValueError` — here `none` — on any other shape). -/
def simulate_airsealed_room_with_control_list (p : Params) (r : RoomRand)
    (data hvac_data : List Rat) : Option (List Rat) :=
  match unpack5 data, unpack3 hvac_data with
  | some (t, te, c, o, th), some h =>
      some (stateToList (simulate_airsealed_room_with_control p r ⟨t, te, c, o, th⟩ h))
  | _, _ => none

/-! ## HVAC.py: use_hvac (lines 32-40) -/

/-- `use_hvac(data, pid_temp, pid_co2, pid_o2)` (HVAC.py lines 32-40):
unpacks the five-element state list (raising — `none` — otherwise), runs the
three PID updates with `dt = 1` on temp, co2, o2, and returns the
five-element list `[time, temp, co2, o2, thermal]` whose middle three
entries are the PID outputs, together with the three mutated controllers. -/
def use_hvac (data : List Rat) (pid_temp pid_co2 pid_o2 : PID) :
    Option (List Rat × PID × PID × PID) :=
  match data with
  | [time, temp, co2, o2, thermal] =>
      let ut := pid_temp.update temp 1
      let uc := pid_co2.update co2 1
      let uo := pid_o2.update o2 1
      some ([time, ut.1, uc.1, uo.1, thermal], ut.2, uc.2, uo.2)
  | _ => none

/-! ## process_model.py: the two driver loops -/

/-- The seed state `[start_time, init_temp_C, init_room_CO2, init_room_O2, 10000]`
built at the first tick of both drivers (process_model.py lines 48 and 87). -/
def seedState (start_time init_temp_C init_room_CO2 init_room_O2 : Rat) : EnvState :=
  ⟨start_time, init_temp_C, init_room_CO2, init_room_O2, 10000⟩

/-- The tick loop of `process_for_dataframe` (process_model.py lines 47-68):
the first iteration starts from the seed, every later iteration steps the
previous `data`; each iteration appends the resulting state to the trace.
`rand` supplies tick `i`'s random draws. This models the loop body alone;
the trailing `plot_data` call on line 71 is modelled separately by
`process_for_dataframe_fuel`. -/
def dataframeTickLoop (p : Params) : (Nat → RoomRand) → EnvState → Nat → List EnvState
  | _, _, 0 => []
  | rand, data, Nat.succ n =>
      let d := simulate_airsealed_room_no_control p (rand 0) data
      d :: dataframeTickLoop p (fun i => rand (i + 1)) d n

/-- A whole call of `process_for_dataframe` (process_model.py lines 46-71) in
a fresh interpreter, with `n = hours_run*60`. After its loop the function
calls `plot_data` (line 71), and `plot_data` calls `process_for_dataframe()`
again (line 25), so the two functions recurse into each other; `fuel` bounds
that re-entry depth. `none` means the call never returns normally: with
`n = 0` the mutual recursion never ends (`RecursionError` in Python), and
with `n > 0` the re-entered loop finds the global `time_list` non-empty, so
its first iteration takes the `else` branch and reads the still-unassigned
local `data` (`UnboundLocalError`). -/
def process_for_dataframe_fuel (p : Params) (rand : Nat → RoomRand) (seed : EnvState)
    (n : Nat) : Nat → Option (List EnvState)
  | 0 => none
  | fuel + 1 =>
      if n = 0 then process_for_dataframe_fuel p rand seed n fuel
      else none

/-- The three PID controllers owned by `process_for_sql`. -/
structure Pids where
  pt : PID
  pc : PID
  po : PID
deriving DecidableEq

/-- The controllers built at the start of `process_for_sql` (process_model.py
lines 75-82): gains from config, setpoints 25, 400 and 210000. -/
def initPids (t1 t2 t3 c1 c2 c3 o1 o2 o3 : Rat) : Pids :=
  ⟨PID.init t1 t2 t3 25, PID.init c1 c2 c3 400, PID.init o1 o2 o3 210000⟩

/-- One iteration of the `process_for_sql` loop (process_model.py lines
86-92) as it actually executes: the branch condition `if not time_list`
tests the module-level `time_list`, which `process_for_sql` never appends
to, so in a fresh run the condition is true on every iteration. Each
iteration therefore rebuilds `data` by an uncontrolled step from the seed
and runs `use_hvac` on it; the returned `hvac_data` is never consumed
(the `else` branch that would pass it to
`simulate_airsealed_room_with_control` is unreachable). Returns the emitted
state together with the mutated controllers. The `none` branch of
`use_hvac` cannot fire because the state list has five elements. -/
def process_for_sql_iter (p : Params) (seed : EnvState) (r : RoomRand) (ps : Pids) :
    EnvState × Pids :=
  let data := simulate_airsealed_room_no_control p r seed
  match use_hvac (stateToList data) ps.pt ps.pc ps.po with
  | some (_, a, b, c) => (data, ⟨a, b, c⟩)
  | none => (data, ps)

/-- The trace emitted by the `process_for_sql` loop (process_model.py lines
86-104) over `n = hours_run*60` iterations: each iteration emits its `data`
via `write_json` and threads the controllers. -/
def sqlTrace (p : Params) (seed : EnvState) : (Nat → RoomRand) → Pids → Nat → List EnvState
  | _, _, 0 => []
  | rand, ps, Nat.succ n =>
      let step := process_for_sql_iter p seed (rand 0) ps
      step.1 :: sqlTrace p seed (fun i => rand (i + 1)) step.2 n

/-- The controller state after the first iteration of `process_for_sql`
(process_model.py lines 87-88): tick 1 builds `data` by an uncontrolled step
from the seed and then measures that advanced state in `use_hvac`. -/
def sqlPidsAfterTickOne (p : Params) (seed : EnvState) (r : RoomRand) (ps : Pids) : Pids :=
  (process_for_sql_iter p seed r ps).2

/-! ## Concrete inputs for counterexamples and witnesses -/

/-- A concrete configuration: room volume 100 m³, one occupant. -/
def cParams : Params := ⟨100, 1⟩

/-- The quiet randomness outcome: no shock, zero noise, zero jitter. -/
def cRand : RoomRand := ⟨⟨false, 0, 0⟩, ⟨0, 0⟩⟩

/-- A concrete seed whose measurements sit exactly at the three setpoints:
temperature 25, CO2 400, O2 210000 (thermal seed 10000 as in the source). -/
def cSeed : EnvState := seedState 0 25 400 210000

/-- Concrete controllers with the gains of the spec's worked PID example. -/
def cPids : Pids := initPids 2 0.5 0.1 1 0.1 0.01 1 0.1 0.01

/-! ## Helper lemmas -/

/-- The checked PID update never raises and agrees with the total update. -/
theorem PID.updateChecked_eq (p : PID) (measurement dt : Rat) :
    p.updateChecked measurement dt = some (p.update measurement dt) := by
  unfold PID.updateChecked PID.update pydiv
  by_cases h : dt > 0
  · simp [h, ne_of_gt h]
  · simp [h]

/-- The source's temperature floor `if temp < -273: temp = -273` equals the
`max` form used by the uncontrolled variant. -/
theorem if_floor_eq_max (t : Rat) : (if t < -273 then (-273 : Rat) else t) = max t (-273) := by
  rcases lt_or_le t (-273) with h | h
  · simp [h, max_eq_right h.le]
  · simp [not_lt.mpr h, max_eq_left h]

/-! ## Claim theorems -/

/-- Claim C9: for every input state and every randomness outcome, both room
step functions return a state whose timestamp is the input timestamp plus
exactly one minute. -/
theorem c9_time_advances_one_minute (p : Params) (r : RoomRand) (s : EnvState)
    (hvac : Rat × Rat × Rat) :
    (simulate_airsealed_room_no_control p r s).time = s.time + 1 ∧
    (simulate_airsealed_room_with_control p r s hvac).time = s.time + 1 :=
  ⟨rfl, rfl⟩

/-- Claim C4: for every input co2, o2 and temperature (of any magnitude or
sign) and every jitter outcome, both components returned by
`simulate_breathing_changes` lie in [0, 1000000]. -/
theorem c4_breathing_output_clamped (p : Params) (r : BreathRand) (co2 o2 temp : Rat) :
    0 ≤ (simulate_breathing_changes p r co2 o2 temp).1 ∧
    (simulate_breathing_changes p r co2 o2 temp).1 ≤ 1000000 ∧
    0 ≤ (simulate_breathing_changes p r co2 o2 temp).2 ∧
    (simulate_breathing_changes p r co2 o2 temp).2 ≤ 1000000 := by
  simp only [simulate_breathing_changes]
  exact ⟨le_max_right _ _, max_le (min_le_left _ _) (by norm_num),
         le_max_right _ _, max_le (min_le_left _ _) (by norm_num)⟩

/-- Claim C6: for every input state (however extreme) and every randomness
outcome the returned temperature is at least -273, and no upper ceiling is
imposed: the returned temperature exceeds any bound for some input. -/
theorem c6_no_control_temp_floor_no_ceiling :
    (∀ (p : Params) (r : RoomRand) (s : EnvState),
        -273 ≤ (simulate_airsealed_room_no_control p r s).temp) ∧
    (∀ M : Rat, ∃ (p : Params) (r : RoomRand) (s : EnvState),
        M < (simulate_airsealed_room_no_control p r s).temp) := by
  constructor
  · intro p r s
    simp only [simulate_airsealed_room_no_control]
    exact le_max_right _ _
  · intro M
    refine ⟨⟨1, 1⟩, ⟨⟨false, 0, 0⟩, ⟨0, 0⟩⟩, ⟨0, M + 274, 0, 0, 0⟩, ?_⟩
    simp only [simulate_airsealed_room_no_control, simulate_process_equipment]
    refine lt_of_lt_of_le ?_ (le_max_left _ _)
    norm_num

/-- Claim C3: `PID.update` computes error = setpoint - measurement, adds
error*dt to the integral accumulator, stores the error in previous_error,
and returns Kp*error + Ki*integral + Kd*derivative; on a fresh controller
with Kp=2, Ki=0.5, Kd=0.1, setpoint=22, update(20, 1) returns exactly 5.2. -/
theorem c3_pid_update_formula_and_concrete :
    (∀ (p : PID) (m dt : Rat),
        (p.update m dt).2.integral = p.integral + (p.setpoint - m) * dt ∧
        (p.update m dt).2.previous_error = p.setpoint - m ∧
        (p.update m dt).1 =
          p.Kp * (p.setpoint - m) + p.Ki * (p.integral + (p.setpoint - m) * dt) +
            p.Kd * (if dt > 0 then ((p.setpoint - m) - p.previous_error) / dt else 0)) ∧
    (PID.update (PID.init 2 0.5 0.1 22) 20 1).1 = 5.2 := by
  refine ⟨fun p m dt => ⟨rfl, rfl, rfl⟩, by norm_num [PID.update, PID.init]⟩

/-- Claim C7: with dt = 0, `PID.update` never raises (the division is
guarded, so the checked update returns `some`), the derivative term is
exactly 0, the integral still accumulates error*0, and previous_error is
set to the current error. -/
theorem c7_update_dt_zero_never_raises (p : PID) (m : Rat) :
    PID.updateChecked p m 0 =
      some (p.Kp * (p.setpoint - m) + p.Ki * (p.integral + (p.setpoint - m) * 0) + p.Kd * 0,
            { p with integral := p.integral + (p.setpoint - m) * 0,
                     previous_error := p.setpoint - m }) := by
  simp [PID.updateChecked]

/-- Claim C5: `simulate_airsealed_room_with_control` behaves exactly as the
spec's description (uncontrolled variant with the temperature adjustment
added to the energy-balance term before the floor, and co2/o2 adjustments
added after the clamp, not re-clamped); with zero adjustments it coincides
with `simulate_airsealed_room_no_control`; and the returned co2 can exceed
1000000. -/
theorem c5_with_control_refines_spec :
    (∀ (p : Params) (r : RoomRand) (s : EnvState) (hvac : Rat × Rat × Rat),
        simulate_airsealed_room_with_control p r s hvac = with_control_spec p r s hvac) ∧
    (∀ (p : Params) (r : RoomRand) (s : EnvState),
        simulate_airsealed_room_with_control p r s (0, 0, 0) =
          simulate_airsealed_room_no_control p r s) ∧
    1000000 < (simulate_airsealed_room_with_control cParams cRand cSeed (0, 1000000, 0)).co2 := by
  refine ⟨fun p r s hvac => ?_, fun p r s => ?_,
    by norm_num [simulate_airsealed_room_with_control, simulate_process_equipment,
      simulate_breathing_changes, mod_breathing, co2_gen_per_person, o2_cons_per_person,
      cParams, cRand, cSeed, seedState, room_air_mass, air_density, air_cp,
      max_def, min_def, abs_of_nonneg]⟩
  · simp only [simulate_airsealed_room_with_control, with_control_spec, if_floor_eq_max]
  · simp only [simulate_airsealed_room_with_control, simulate_airsealed_room_no_control,
      if_floor_eq_max, add_zero]

/-- Claim C10: `use_hvac` on a five-element state list returns a five-element
list keeping time and thermal and replacing temp/co2/o2 by the PID outputs,
and passing that list as the hvac_data argument of
`simulate_airsealed_room_with_control` always raises the unpacking error
(modelled as `none`), for every data argument. -/
theorem c10_use_hvac_output_breaks_with_control
    (p : Params) (r : RoomRand) (t te c o th : Rat) (pt pc po : PID) (d : List Rat) :
    use_hvac [t, te, c, o, th] pt pc po =
      some ([t, (pt.update te 1).1, (pc.update c 1).1, (po.update o 1).1, th],
        (pt.update te 1).2, (pc.update c 1).2, (po.update o 1).2) ∧
    simulate_airsealed_room_with_control_list p r d
      [t, (pt.update te 1).1, (pc.update c 1).1, (po.update o 1).1, th] = none := by
  constructor
  · rfl
  · rcases h5 : unpack5 d with _ | x <;>
      simp [simulate_airsealed_room_with_control_list, unpack3, h5]

/-- Claim C8: the uncontrolled tick loop itself runs exactly hours_run*60
iterations (trace length n, empty for n = 0), but the full
`process_for_dataframe` call never completes without error for hours_run=0:
`plot_data` re-invokes it, giving unbounded mutual recursion, so the fueled
model returns `none` for every amount of fuel. -/
theorem c8_tick_loop_count_and_rerun_never_returns :
    (∀ (p : Params) (rand : Nat → RoomRand) (seed : EnvState) (n : Nat),
        (dataframeTickLoop p rand seed n).length = n) ∧
    (∀ (p : Params) (rand : Nat → RoomRand) (seed : EnvState) (fuel : Nat),
        process_for_dataframe_fuel p rand seed 0 fuel = none) := by
  constructor
  · intro p rand seed n
    induction n generalizing rand seed with
    | zero => rfl
    | succ n ih => simp [dataframeTickLoop, ih]
  · intro p rand seed fuel
    induction fuel with
    | zero => rfl
    | succ fuel ih => simpa [process_for_dataframe_fuel] using ih

/-- Claim C1: the claim says every tick after the first is produced by
`simulate_airsealed_room_with_control` from the prior tick's state. The code
instead emits, at every index i of the controlled-mode trace, the
uncontrolled step applied to the initial seed: the controlled step function
never runs, because the branch condition reads a global the loop never
updates. -/
theorem c1_sql_trace_every_tick_uncontrolled_from_seed
    (p : Params) (seed : EnvState) (rand : Nat → RoomRand) (ps : Pids)
    (n i : Nat) (h : i < n) :
    (sqlTrace p seed rand ps n)[i]? =
      some (simulate_airsealed_room_no_control p (rand i) seed) := by
  induction n generalizing rand ps i with
  | zero => exact absurd h (Nat.not_lt_zero i)
  | succ n ih =>
    cases i with
    | zero =>
      simp [sqlTrace]
      rfl
    | succ i =>
      simpa [sqlTrace] using ih (fun j => rand (j + 1)) _ i (Nat.lt_of_succ_lt_succ h)

/-- Witness for C1 at the concrete run: two ticks, index 1. -/
theorem c1_witness :
    1 < 2 ∧
    (sqlTrace cParams cSeed (fun _ => cRand) cPids 2)[1]? =
      some (simulate_airsealed_room_no_control cParams cRand cSeed) :=
  ⟨by norm_num,
   c1_sql_trace_every_tick_uncontrolled_from_seed cParams cSeed (fun _ => cRand) cPids 2 1
     (by norm_num)⟩

/-- Claim C2 counterexample: at the concrete configuration whose seed sits
exactly at the setpoints (initial temperature 25), the claim predicts the
temperature controller's previous_error after tick 1 is 25 - 25 = 0; the
code instead measures the state already advanced by an uncontrolled step,
giving -800/9849. -/
theorem c2_counterexample :
    (sqlPidsAfterTickOne cParams cSeed cRand cPids).pt.previous_error ≠ 25 - cSeed.temp := by
  show 25 - (simulate_airsealed_room_no_control cParams cRand cSeed).temp ≠ 25 - cSeed.temp
  norm_num [simulate_airsealed_room_no_control, simulate_process_equipment, cParams, cRand,
    cSeed, seedState, room_air_mass, air_density, air_cp, max_def]

/-- Claim C2 amended: immediately after tick 1 each controller's
previous_error equals its setpoint minus the corresponding measurement of
the state produced by one uncontrolled step from the seeded initial state
(not of the initial state itself). -/
theorem c2_amended_tick_one_measures_advanced_state
    (p : Params) (seed : EnvState) (r : RoomRand) (t1 t2 t3 c1 c2 c3 o1 o2 o3 : Rat) :
    (sqlPidsAfterTickOne p seed r (initPids t1 t2 t3 c1 c2 c3 o1 o2 o3)).pt.previous_error =
        25 - (simulate_airsealed_room_no_control p r seed).temp ∧
    (sqlPidsAfterTickOne p seed r (initPids t1 t2 t3 c1 c2 c3 o1 o2 o3)).pc.previous_error =
        400 - (simulate_airsealed_room_no_control p r seed).co2 ∧
    (sqlPidsAfterTickOne p seed r (initPids t1 t2 t3 c1 c2 c3 o1 o2 o3)).po.previous_error =
        210000 - (simulate_airsealed_room_no_control p r seed).o2 :=
  ⟨rfl, rfl, rfl⟩

end PidSim
